/-
Verification of the PreViz scene-geometry and data-model core (src/previz.py).

The development shallowly embeds the Python source:
* Python dict-of-dicts elements become association lists `List (String × Value)`
  with `Value` covering the numeric and string payloads the app stores.
  Numeric fields are modelled as rationals (the concrete values the app
  manipulates — literals, +1.0/+2.0 offsets, slider integers — are all exactly
  representable, so float rounding is not observable at the claims).
* The geometry kernel (rotate_point, create_camera_frustum,
  create_light_coverage) is embedded over the reals, with the same
  degree→radian conversion as numpy.
* The JSON export/load path embeds `json.dumps`/`json.loads` at the level of a
  JSON value tree: element records encode to objects of flat string/number
  fields exactly as `json` serializes them, and the loader reads
  `scene_data['elements']` and then `scene_data['scene_name']` in the source's
  statement order.
-/
import Mathlib

namespace Previz

/-- A JSON-serializable scalar stored in an element record
(Python stores strings, ints and floats; numbers are modelled as ℚ). -/
inductive Value where
  | num (q : ℚ)
  | str (s : String)
deriving DecidableEq, Repr

/-- An element record: a Python dict in insertion order. -/
abbrev Elem := List (String × Value)

/-- Dict read: first binding of the key (Python dict keys are unique). -/
def dget {α : Type} : List (String × α) → String → Option α
  | [], _ => none
  | (k, v) :: t, key => if k = key then some v else dget t key

/-- Dict write: replace the binding in place, append if absent
(Python dict assignment keeps the key's insertion position). -/
def dset {α : Type} : List (String × α) → String → α → List (String × α)
  | [], key, v => [(key, v)]
  | (k, w) :: t, key, v => if k = key then (key, v) :: t else (k, w) :: dset t key v

/-- The per-kind element sequences of `st.session_state.scene_elements`. -/
structure Elements where
  cameras : List Elem
  lights : List Elem
  actors : List Elem
  set_pieces : List Elem
  vehicles : List Elem
  screens : List Elem
  green_screens : List Elem
deriving DecidableEq, Repr

/-- Scene state: `st.session_state.scene_name` plus the element store. -/
structure Scene where
  scene_name : String
  elements : Elements
deriving DecidableEq, Repr

/-- The initial element store (previz.py lines 59-68). -/
def emptyElements : Elements :=
  { cameras := [], lights := [], actors := [], set_pieces := []
    vehicles := [], screens := [], green_screens := [] }

/-- The initial scene (previz.py lines 59-74). -/
def emptyScene : Scene :=
  { scene_name := "Untitled Scene", elements := emptyElements }

/-! ## Geometry kernel (previz.py lines 107-154) -/

/-- `angle_to_radians` (previz.py line 107): numpy degree→radian conversion. -/
noncomputable def angle_to_radians (angle_deg : ℝ) : ℝ :=
  angle_deg * (Real.pi / 180)

/-- `rotate_point` (previz.py line 111): rotate a point about the origin by an
angle given in degrees. -/
noncomputable def rotate_point (x y angle_deg : ℝ) : ℝ × ℝ :=
  let angle_rad := angle_to_radians angle_deg
  let cos_a := Real.cos angle_rad
  let sin_a := Real.sin angle_rad
  (x * cos_a - y * sin_a, x * sin_a + y * cos_a)

/-- `create_camera_frustum` (previz.py line 120).  The source's unused `name`
parameter is dropped; the default `fov=60` is passed explicitly by callers. -/
noncomputable def create_camera_frustum (x y z rotation fov : ℝ) :
    List (ℝ × ℝ × ℝ) :=
  let cone_length : ℝ := 4
  let cone_width : ℝ := Real.tan (angle_to_radians (fov / 2)) * cone_length
  let points : List (ℝ × ℝ) := [(0, 0), (-cone_width, cone_length), (cone_width, cone_length)]
  let rotated_points := points.map (fun p => rotate_point p.1 p.2 rotation)
  rotated_points.map (fun p => (x + p.1, y + p.2, z))

/-- `create_light_coverage` (previz.py line 140): `[x, y, z, x+dx, y+dy, z]`. -/
noncomputable def create_light_coverage (x y z rotation intensity : ℝ)
    (light_type : String) : List ℝ :=
  let beam_length : ℝ :=
    if light_type = "Key Light" ∨ light_type = "Fill Light" ∨ light_type = "Back Light" then
      intensity / 15
    else if light_type = "LED Panel" then intensity / 25
    else if light_type = "Practical" then intensity / 40
    else intensity / 10
  let d := rotate_point 0 beam_length rotation
  [x, y, z, x + d.1, y + d.2, z]

/-- The per-type beam divisor table as the specification states it
(k = 15 for Key/Fill/Back, 25 for LED Panel, 40 for Practical, 10 otherwise). -/
noncomputable def beamDivisor (light_type : String) : ℝ :=
  if light_type = "Key Light" ∨ light_type = "Fill Light" ∨ light_type = "Back Light" then 15
  else if light_type = "LED Panel" then 25
  else if light_type = "Practical" then 40
  else 10

/-- Planar dot product, used to state the frustum-symmetry property. -/
def dot (u v : ℝ × ℝ) : ℝ := u.1 * v.1 + u.2 * v.2

/-- The C6 frustum property at one input: the returned triangle is
`[apex, farLeft, farRight]` with apex at the pose position and far corners the
rotations of `(−w, 4)` and `(w, 4)` (w = 4·tan(fov/2)) translated by the pose;
the two far corners are equidistant from the apex, their components along the
forward ray `rotate_point 0 1 rot` agree, and their components along the
lateral direction `rotate_point 1 0 rot` are opposite. -/
noncomputable def FrustumSpec (x y z rot fov : ℝ) : Prop :=
  let w : ℝ := 4 * Real.tan (angle_to_radians (fov / 2))
  let fl := rotate_point (-w) 4 rot
  let fr := rotate_point w 4 rot
  create_camera_frustum x y z rot fov =
      [(x, y, z), (x + fl.1, y + fl.2, z), (x + fr.1, y + fr.2, z)]
    ∧ fl.1 ^ 2 + fl.2 ^ 2 = fr.1 ^ 2 + fr.2 ^ 2
    ∧ dot fl (rotate_point 0 1 rot) = dot fr (rotate_point 0 1 rot)
    ∧ dot fl (rotate_point 1 0 rot) = -dot fr (rotate_point 1 0 rot)

/-! ## Duplicate and the Copy-rename rule (previz.py lines 156-183) -/

/-- The literal `"Copy"` searched for by `duplicate_element`. -/
def copyPat : List Char := ['C', 'o', 'p', 'y']

/-- `s.rsplit(pat, 1)` on the found case: split at the LAST occurrence of
`pat`, returning the text before and after it; `none` when `pat` does not
occur (in Python that case returns the single-element list `[s]`, which the
source rules out with the preceding containment check). -/
def rsplitLast (pat : List Char) : List Char → Option (List Char × List Char)
  | [] => none
  | c :: rest =>
    match rsplitLast pat rest with
    | some (pre, suf) => some (c :: pre, suf)
    | none =>
      if pat.isPrefixOf (c :: rest) then some ([], (c :: rest).drop pat.length)
      else none

/-- Python `str.strip()` (ASCII whitespace suffices for the stored names). -/
def stripChars (l : List Char) : List Char :=
  ((l.dropWhile Char.isWhitespace).reverse.dropWhile Char.isWhitespace).reverse

/-- Python `str.isdigit()` on ASCII text: nonempty and all decimal digits.
(Unicode digit characters, where Python's `isdigit` and `int` disagree and the
source's bare `except` would fire, are outside the modelled character set.) -/
def isDigits (l : List Char) : Bool :=
  !l.isEmpty && l.all Char.isDigit

/-- Numeric value of a decimal digit string, as Python `int` reads it. -/
def digitsToNat (l : List Char) : ℕ :=
  l.foldl (fun a c => 10 * a + (c.toNat - '0'.toNat)) 0

/-- The rename step of `duplicate_element` (previz.py lines 168-181). -/
def renameCopy (original_name : String) : String :=
  match rsplitLast copyPat original_name.toList with
  | none => original_name ++ " Copy"
  | some (pre, suf) =>
    let t := stripChars suf
    if isDigits t then
      String.mk pre ++ "Copy " ++ toString (digitsToNat t + 1)
    else
      original_name ++ " Copy 2"

/-- `duplicate_element` (previz.py line 156): deep copy, offset `x`/`y` by 2.0
for cameras and 1.0 otherwise, then rename.  Returns `none` when a required
key is absent or of the wrong type (Python would raise KeyError/TypeError). -/
def duplicate_element (element_type : String) (element_data : Elem) : Option Elem :=
  match dget element_data "x", dget element_data "y", dget element_data "name" with
  | some (Value.num x0), some (Value.num y0), some (Value.str original_name) =>
    let offset : ℚ := if element_type = "cameras" then 2 else 1
    let e1 := dset (dset element_data "x" (Value.num (x0 + offset)))
        "y" (Value.num (y0 + offset))
    some (dset e1 "name" (Value.str (renameCopy original_name)))
  | _, _, _ => none

/-- The Add Light form submission (previz.py lines 897-906): the record built
from the form is appended to the lights sequence unconditionally.  The
source defines no ValidationError; the intensity range is imposed only by the
UI slider (`st.slider("Intensity (%)", 0, 100, ...)`). -/
def add_light (E : Elements) (record : Elem) : Elements :=
  { E with lights := E.lights ++ [record] }

/-! ## Serialization (previz.py lines 691-699 and 1175-1181)

`export_scene_json` builds a dict and `json.dumps` it; the load handler
`json.loads` the uploaded file and assigns `scene_data['elements']` and then
`scene_data['scene_name']`.  The text layer is embedded at the JSON value
tree: `json.dumps`/`json.loads` round-trip the stored strings and (int/float)
numbers faithfully, so a document is a `Json` tree here. -/

/-- A JSON value (restricted to the forms the app reads and writes). -/
inductive Json where
  | num (q : ℚ)
  | str (s : String)
  | arr (l : List Json)
  | obj (fields : List (String × Json))

/-- Option-valued map over a list, failing if any element fails. -/
def optMapList {α β : Type} (f : α → Option β) : List α → Option (List β)
  | [] => some []
  | a :: t =>
    match f a, optMapList f t with
    | some b, some bt => some (b :: bt)
    | _, _ => none

/-- Serialize one stored scalar. -/
def encodeValue : Value → Json
  | Value.num q => Json.num q
  | Value.str s => Json.str s

/-- Read one stored scalar back from JSON. -/
def decodeValue : Json → Option Value
  | Json.num q => some (Value.num q)
  | Json.str s => some (Value.str s)
  | _ => none

/-- Serialize one element record (a flat dict of scalars). -/
def encodeElem (e : Elem) : Json :=
  Json.obj (e.map (fun kv => (kv.1, encodeValue kv.2)))

/-- Read one element record back from JSON. -/
def decodeElem : Json → Option Elem
  | Json.obj fields =>
    optMapList (fun kv => (decodeValue kv.2).map (fun v => (kv.1, v))) fields
  | _ => none

/-- Read a per-kind sequence back from JSON. -/
def decodeElemList : Json → Option (List Elem)
  | Json.arr l => optMapList decodeElem l
  | _ => none

/-- Serialize the element store (the value of the `elements` key). -/
def encodeElements (E : Elements) : Json :=
  Json.obj
    [("cameras", Json.arr (E.cameras.map encodeElem)),
     ("lights", Json.arr (E.lights.map encodeElem)),
     ("actors", Json.arr (E.actors.map encodeElem)),
     ("set_pieces", Json.arr (E.set_pieces.map encodeElem)),
     ("vehicles", Json.arr (E.vehicles.map encodeElem)),
     ("screens", Json.arr (E.screens.map encodeElem)),
     ("green_screens", Json.arr (E.green_screens.map encodeElem))]

/-- Read the element store back from JSON (all seven kind keys, each a list
of flat element records — the shape `export_scene_json` writes). -/
def decodeElements (j : Json) : Option Elements :=
  match j with
  | Json.obj fields =>
    match (dget fields "cameras").bind decodeElemList,
        (dget fields "lights").bind decodeElemList,
        (dget fields "actors").bind decodeElemList,
        (dget fields "set_pieces").bind decodeElemList,
        (dget fields "vehicles").bind decodeElemList,
        (dget fields "screens").bind decodeElemList,
        (dget fields "green_screens").bind decodeElemList with
    | some c, some l, some a, some sp, some v, some sc, some gs =>
      some { cameras := c, lights := l, actors := a, set_pieces := sp,
             vehicles := v, screens := sc, green_screens := gs }
    | _, _, _, _, _, _, _ => none
  | _ => none

/-- `export_scene_json` (previz.py line 691): the exported document, with the
timestamp passed in for `datetime.now().isoformat()`. -/
def export_scene_json (now : String) (s : Scene) : Json :=
  Json.obj
    [("scene_name", Json.str s.scene_name),
     ("created", Json.str now),
     ("elements", encodeElements s.elements),
     ("version", Json.str "3.5-phase1")]

/-- The Load Scene handler (previz.py lines 1175-1181).  It performs, in
order, `scene_elements = scene_data['elements']` and then
`scene_name = scene_data['scene_name']`; a missing key raises KeyError at
that point, leaving the assignments made so far in place.  The result pairs
the session state after the handler with the raised error, if any.  Values
outside the typed model (an `elements` value that is not a mapping of flat
element records, a non-string `scene_name` — cases where the source would
store a malformed value and crash later) are reported as model-boundary
errors. -/
def load_scene (j : Json) (s : Scene) : Scene × Option String :=
  match j with
  | Json.obj fields =>
    match dget fields "elements" with
    | none => (s, some "KeyError: elements")
    | some ev =>
      match decodeElements ev with
      | none => (s, some "model boundary: elements value is not an element mapping")
      | some es =>
        let s1 : Scene := { s with elements := es }
        match dget fields "scene_name" with
        | none => (s1, some "KeyError: scene_name")
        | some (Json.str nm) => ({ s1 with scene_name := nm }, none)
        | some _ => (s1, some "model boundary: scene_name value is not a string")
  | _ => (s, some "model boundary: document is not an object")

/-! ## Templates (previz.py lines 1054-1110)

Each template button assigns fixed literal lists to SOME kind sequences and
leaves every other kind sequence untouched. -/

/-- Lights set by the Three-Point Lighting button (previz.py lines 1055-1062). -/
def threePointLights : List Elem :=
  [[("name", Value.str "Key Light"), ("type", Value.str "Key Light"),
    ("x", Value.num 3), ("y", Value.num 3), ("z", Value.num 6),
    ("rotation", Value.num 225), ("intensity", Value.num 100)],
   [("name", Value.str "Fill Light"), ("type", Value.str "Fill Light"),
    ("x", Value.num (-3)), ("y", Value.num 3), ("z", Value.num 5),
    ("rotation", Value.num 135), ("intensity", Value.num 50)],
   [("name", Value.str "Back Light"), ("type", Value.str "Back Light"),
    ("x", Value.num 0), ("y", Value.num (-3)), ("z", Value.num 7),
    ("rotation", Value.num 0), ("intensity", Value.num 70)]]

/-- Actors set by the Three-Point Lighting button. -/
def threePointActors : List Elem :=
  [[("name", Value.str "Subject"), ("x", Value.num 0), ("y", Value.num 0),
    ("notes", Value.str "Center frame")]]

/-- Cameras set by the Three-Point Lighting button. -/
def threePointCameras : List Elem :=
  [[("name", Value.str "Main Camera"), ("x", Value.num 0), ("y", Value.num (-8)),
    ("z", Value.num 5), ("rotation", Value.num 0),
    ("focal_length", Value.num 50), ("fov", Value.num 47)]]

/-- Cameras set by the Multi-Camera Interview button (previz.py lines 1073-1080). -/
def multiCamCameras : List Elem :=
  [[("name", Value.str "Camera A (Wide)"), ("x", Value.num 0), ("y", Value.num (-8)),
    ("z", Value.num 5), ("rotation", Value.num 0),
    ("focal_length", Value.num 35), ("fov", Value.num 63)],
   [("name", Value.str "Camera B (Close)"), ("x", Value.num (-3)), ("y", Value.num (-7)),
    ("z", Value.num (9/2)), ("rotation", Value.num 15),
    ("focal_length", Value.num 85), ("fov", Value.num 29)],
   [("name", Value.str "Camera C (Over Shoulder)"), ("x", Value.num 2), ("y", Value.num (-2)),
    ("z", Value.num 4), ("rotation", Value.num 180),
    ("focal_length", Value.num 50), ("fov", Value.num 47)]]

/-- Actors set by the Multi-Camera Interview button. -/
def multiCamActors : List Elem :=
  [[("name", Value.str "Interviewee"), ("x", Value.num 0), ("y", Value.num 0),
    ("notes", Value.str "Seated, looking camera left")]]

/-- Set pieces set by the Multi-Camera Interview button. -/
def multiCamSetPieces : List Elem :=
  [[("name", Value.str "Interview Chair"), ("type", Value.str "Chair"),
    ("x", Value.num 0), ("y", Value.num 0)]]

/-- Green screens set by the Green Screen Setup button (previz.py lines 1090-1092). -/
def gsSetupGreenScreens : List Elem :=
  [[("name", Value.str "Main Green Screen"), ("size", Value.str "12x20 ft"),
    ("x", Value.num 0), ("y", Value.num 8), ("rotation", Value.num 0)]]

/-- Cameras set by the Green Screen Setup button. -/
def gsSetupCameras : List Elem :=
  [[("name", Value.str "Main Camera"), ("x", Value.num 0), ("y", Value.num (-6)),
    ("z", Value.num 5), ("rotation", Value.num 0),
    ("focal_length", Value.num 50), ("fov", Value.num 47)]]

/-- Lights set by the Green Screen Setup button. -/
def gsSetupLights : List Elem :=
  [[("name", Value.str "Subject Key"), ("type", Value.str "Key Light"),
    ("x", Value.num 3), ("y", Value.num (-2)), ("z", Value.num 6),
    ("rotation", Value.num 200), ("intensity", Value.num 100)],
   [("name", Value.str "Subject Fill"), ("type", Value.str "Fill Light"),
    ("x", Value.num (-3)), ("y", Value.num (-2)), ("z", Value.num 5),
    ("rotation", Value.num 160), ("intensity", Value.num 60)],
   [("name", Value.str "Green Screen Light L"), ("type", Value.str "LED Panel"),
    ("x", Value.num (-4)), ("y", Value.num 6), ("z", Value.num 4),
    ("rotation", Value.num 90), ("intensity", Value.num 80)],
   [("name", Value.str "Green Screen Light R"), ("type", Value.str "LED Panel"),
    ("x", Value.num 4), ("y", Value.num 6), ("z", Value.num 4),
    ("rotation", Value.num 90), ("intensity", Value.num 80)]]

/-- Actors set by the Green Screen Setup button. -/
def gsSetupActors : List Elem :=
  [[("name", Value.str "Subject"), ("x", Value.num 0), ("y", Value.num 2),
    ("notes", Value.str "Standing 6 ft from green screen")]]

/-- The template buttons (previz.py lines 1054-1110), keyed by button label.
Each recognized name assigns its fixed literal lists to the kinds its handler
mentions and leaves the other kind sequences as they were; an unrecognized
name corresponds to no button (`none`). -/
def apply_template (templateName : String) (s : Scene) : Option Scene :=
  if templateName = "Three-Point Lighting" then
    some { s with elements := { s.elements with
      lights := threePointLights, actors := threePointActors,
      cameras := threePointCameras } }
  else if templateName = "Multi-Camera Interview" then
    some { s with elements := { s.elements with
      cameras := multiCamCameras, actors := multiCamActors,
      set_pieces := multiCamSetPieces } }
  else if templateName = "Green Screen Setup" then
    some { s with elements := { s.elements with
      green_screens := gsSetupGreenScreens, cameras := gsSetupCameras,
      lights := gsSetupLights, actors := gsSetupActors } }
  else none

/-! ## Setup report (previz.py lines 584-689)

`export_setup_report` builds one text by successive `+=`.  The embedding
keeps the same pieces in the same order but as a structure — a list of
sections (title, count, body text) followed by the checklist lines — with
`reportText` flattening it into the single string the source produces. -/

/-- Python `f"{q:.1f}"` on the stored numbers: one decimal digit.  (Rounding
of exact halves may differ from IEEE float formatting; no stated property
depends on it.) -/
def fmtQ1 (q : ℚ) : String :=
  let n : ℤ := round (q * 10)
  let sign := if n < 0 then "-" else ""
  sign ++ toString (n.natAbs / 10) ++ "." ++ toString (n.natAbs % 10)

/-- A stored number as Python prints it bare (integers print undecorated;
the stored values are integers except user-typed positions). -/
def ratStr (q : ℚ) : String := toString q

/-- String field of a record, defaulting to "" (the source would raise
KeyError on a missing field; report bodies are built for well-formed records). -/
def dgetStr (e : Elem) (k : String) : String :=
  match dget e k with
  | some (Value.str s) => s
  | _ => ""

/-- Numeric field of a record, defaulting to 0 (same caveat as `dgetStr`). -/
def dgetNum (e : Elem) (k : String) : ℚ :=
  match dget e k with
  | some (Value.num q) => q
  | _ => 0

/-- One numbered camera entry (previz.py lines 596-603). -/
def cameraEntry (i : ℕ) (c : Elem) : String :=
  "\n" ++ toString i ++ ". " ++ dgetStr c "name" ++
  "\n   Position: (" ++ fmtQ1 (dgetNum c "x") ++ ", " ++ fmtQ1 (dgetNum c "y") ++
  ", " ++ fmtQ1 (dgetNum c "z") ++ ") feet" ++
  "\n   Rotation: " ++ ratStr (dgetNum c "rotation") ++ "°" ++
  "\n   Focal Length: " ++ ratStr (dgetNum c "focal_length") ++ "mm" ++
  "\n   Field of View: " ++ ratStr (dgetNum c "fov") ++ "°\n"

/-- One numbered light entry (previz.py lines 609-616). -/
def lightEntry (i : ℕ) (l : Elem) : String :=
  "\n" ++ toString i ++ ". " ++ dgetStr l "name" ++
  "\n   Type: " ++ dgetStr l "type" ++
  "\n   Position: (" ++ fmtQ1 (dgetNum l "x") ++ ", " ++ fmtQ1 (dgetNum l "y") ++
  ", " ++ fmtQ1 (dgetNum l "z") ++ ") feet" ++
  "\n   Rotation: " ++ ratStr (dgetNum l "rotation") ++ "°" ++
  "\n   Intensity: " ++ ratStr (dgetNum l "intensity") ++ "%\n"

/-- One numbered actor entry (previz.py lines 622-630), with the movement
line only when both `move_to_x` and `move_to_y` are present. -/
def actorEntry (i : ℕ) (a : Elem) : String :=
  let movement :=
    match dget a "move_to_x", dget a "move_to_y" with
    | some (Value.num mx), some (Value.num my) =>
      "\n   Movement: → (" ++ fmtQ1 mx ++ ", " ++ fmtQ1 my ++ ")"
    | _, _ => ""
  "\n" ++ toString i ++ ". " ++ dgetStr a "name" ++
  "\n   Position: (" ++ fmtQ1 (dgetNum a "x") ++ ", " ++ fmtQ1 (dgetNum a "y") ++
  ") feet" ++ "\n   Notes: " ++ dgetStr a "notes" ++ movement ++ "\n"

/-- One numbered set-piece entry (previz.py lines 637-641). -/
def setPieceEntry (i : ℕ) (p : Elem) : String :=
  "\n" ++ toString i ++ ". " ++ dgetStr p "name" ++ " (" ++ dgetStr p "type" ++ ")" ++
  "\n   Position: (" ++ fmtQ1 (dgetNum p "x") ++ ", " ++ fmtQ1 (dgetNum p "y") ++
  ") feet\n"

/-- One numbered vehicle entry (previz.py lines 648-653). -/
def vehicleEntry (i : ℕ) (v : Elem) : String :=
  "\n" ++ toString i ++ ". " ++ dgetStr v "name" ++ " (" ++ dgetStr v "type" ++ ")" ++
  "\n   Position: (" ++ fmtQ1 (dgetNum v "x") ++ ", " ++ fmtQ1 (dgetNum v "y") ++
  ") feet" ++ "\n   Rotation: " ++ ratStr (dgetNum v "rotation") ++ "°\n"

/-- One numbered screen entry (previz.py lines 660-664). -/
def screenEntry (i : ℕ) (sc : Elem) : String :=
  "\n" ++ toString i ++ ". " ++ dgetStr sc "name" ++ " (" ++ dgetStr sc "size" ++ ")" ++
  "\n   Position: (" ++ fmtQ1 (dgetNum sc "x") ++ ", " ++ fmtQ1 (dgetNum sc "y") ++
  ", " ++ fmtQ1 (dgetNum sc "z") ++ ") feet\n"

/-- One numbered green-screen entry (previz.py lines 671-676). -/
def greenScreenEntry (i : ℕ) (g : Elem) : String :=
  "\n" ++ toString i ++ ". " ++ dgetStr g "name" ++ " (" ++ dgetStr g "size" ++ ")" ++
  "\n   Position: (" ++ fmtQ1 (dgetNum g "x") ++ ", " ++ fmtQ1 (dgetNum g "y") ++
  ") feet" ++ "\n   Rotation: " ++ ratStr (dgetNum g "rotation") ++ "°\n"

/-- Concatenate the entries of one kind, numbering from 1 as the source's
`enumerate(..., 1)` does. -/
def entriesText (entry : ℕ → Elem → String) (l : List Elem) : String :=
  String.join (l.enum.map (fun ic => entry (ic.1 + 1) ic.2))

/-- One report section: its header title, the count shown in the header, and
the concatenated entry text. -/
structure ReportSection where
  title : String
  count : ℕ
  body : String
deriving DecidableEq, Repr

/-- The structured setup report: sections in source order, then checklist lines. -/
structure Report where
  sections : List ReportSection
  checklist : List String
deriving DecidableEq, Repr

/-- `export_setup_report` (previz.py line 584) as a structure.  CAMERAS,
LIGHTING and TALENT sections are emitted unconditionally; the other kinds
get a section only when their sequence is nonempty.  The checklist always
lists cameras and lights and adds monitors/green screens only when present. -/
def export_setup_report (s : Scene) : Report :=
  { sections :=
      [{ title := "CAMERAS", count := s.elements.cameras.length,
         body := entriesText cameraEntry s.elements.cameras },
       { title := "LIGHTING", count := s.elements.lights.length,
         body := entriesText lightEntry s.elements.lights },
       { title := "TALENT", count := s.elements.actors.length,
         body := entriesText actorEntry s.elements.actors }]
      ++ (if s.elements.set_pieces = [] then [] else
          [{ title := "SET PIECES", count := s.elements.set_pieces.length,
             body := entriesText setPieceEntry s.elements.set_pieces }])
      ++ (if s.elements.vehicles = [] then [] else
          [{ title := "VEHICLES", count := s.elements.vehicles.length,
             body := entriesText vehicleEntry s.elements.vehicles }])
      ++ (if s.elements.screens = [] then [] else
          [{ title := "SCREENS/MONITORS", count := s.elements.screens.length,
             body := entriesText screenEntry s.elements.screens }])
      ++ (if s.elements.green_screens = [] then [] else
          [{ title := "GREEN SCREENS", count := s.elements.green_screens.length,
             body := entriesText greenScreenEntry s.elements.green_screens }]),
    checklist :=
      ["  ☐ " ++ toString s.elements.cameras.length ++ " Camera(s)\n",
       "  ☐ " ++ toString s.elements.lights.length ++ " Light(s)\n"]
      ++ (if s.elements.screens = [] then [] else
          ["  ☐ " ++ toString s.elements.screens.length ++ " Monitor(s)\n"])
      ++ (if s.elements.green_screens = [] then [] else
          ["  ☐ " ++ toString s.elements.green_screens.length ++ " Green Screen(s)\n"]) }

/-- Render one section as the source formats it. -/
def sectionText (sec : ReportSection) : String :=
  "\n" ++ sec.title ++ " (" ++ toString sec.count ++ ")\n" ++
  "-------------------------------------\n" ++ sec.body

/-- Flatten the structured report into the single string the source builds,
with the generation timestamp passed in for `datetime.now()`. -/
def reportText (now : String) (s : Scene) : String :=
  let r := export_setup_report s
  "\nPRODUCTION SETUP REPORT\n=====================================\n" ++
  "Scene: " ++ s.scene_name ++ "\nDate Generated: " ++ now ++
  "\n=====================================\n" ++
  String.join (r.sections.map sectionText) ++
  "\n=====================================\nEquipment Checklist:\n" ++
  String.join r.checklist

/-! ## Helper lemmas -/

theorem dget_dset_self {α : Type} (l : List (String × α)) (k : String) (v : α) :
    dget (dset l k v) k = some v := by
  induction l with
  | nil => simp [dget, dset]
  | cons kv t ih =>
    obtain ⟨k1, w1⟩ := kv
    by_cases h : k1 = k
    · simp [dset, h, dget]
    · simp [dset, h, dget, ih]

theorem dget_dset_ne {α : Type} (l : List (String × α)) (k k2 : String) (v : α)
    (h : k2 ≠ k) : dget (dset l k2 v) k = dget l k := by
  induction l with
  | nil => simp [dget, dset, h]
  | cons kv t ih =>
    obtain ⟨k1, w1⟩ := kv
    by_cases h1 : k1 = k2
    · subst h1; simp [dset, dget, h]
    · by_cases h2 : k1 = k
      · simp [dset, dget, h1, h2, Ne.symm h]
      · simp [dset, dget, h1, h2, ih]

theorem rsplitLast_eq_none (a : Char) (pat s : List Char) (h : a ∉ s) :
    rsplitLast (a :: pat) s = none := by
  induction s with
  | nil => rfl
  | cons c t ih =>
    have hc : a ≠ c := fun e => h (e ▸ List.mem_cons_self c t)
    have ht : a ∉ t := fun m => h (List.mem_cons_of_mem c m)
    simp [rsplitLast, ih ht, List.isPrefixOf, hc]

theorem rsplitLast_append (p s : List Char) (h : 'C' ∉ s) :
    rsplitLast copyPat (p ++ (copyPat ++ s)) = some (p, s) := by
  induction p with
  | nil =>
    have h2 : 'C' ∉ ['o', 'p', 'y'] ++ s := by
      intro m
      rcases List.mem_append.mp m with m1 | m2
      · simp at m1
      · exact h m2
    have hnone : rsplitLast copyPat (['o', 'p', 'y'] ++ s) = none :=
      rsplitLast_eq_none 'C' ['o', 'p', 'y'] (['o', 'p', 'y'] ++ s) h2
    have hpre : copyPat.isPrefixOf ('C' :: (['o', 'p', 'y'] ++ s)) = true :=
      List.isPrefixOf_iff_prefix.mpr ⟨s, rfl⟩
    have hdrop : List.drop copyPat.length ('C' :: (['o', 'p', 'y'] ++ s)) = s :=
      List.drop_left copyPat s
    show rsplitLast copyPat ('C' :: (['o', 'p', 'y'] ++ s)) = some ([], s)
    rw [rsplitLast, hnone, hpre, if_pos rfl, hdrop]
  | cons c p ih =>
    show rsplitLast copyPat (c :: (p ++ (copyPat ++ s))) = some (c :: p, s)
    rw [rsplitLast, ih]

theorem rsplitLast_decomp (pat : List Char) :
    ∀ s pre suf, rsplitLast pat s = some (pre, suf) → s = pre ++ pat ++ suf := by
  intro s
  induction s with
  | nil => intro pre suf h; simp [rsplitLast] at h
  | cons c t ih =>
    intro pre suf h
    rw [rsplitLast] at h
    cases hr : rsplitLast pat t with
    | some pq =>
      obtain ⟨p1, q1⟩ := pq
      rw [hr] at h
      simp only [Option.some.injEq, Prod.mk.injEq] at h
      obtain ⟨h1, h2⟩ := h
      have ht := ih p1 q1 hr
      subst h1
      subst h2
      simp [ht]
    | none =>
      rw [hr] at h
      by_cases hp : pat.isPrefixOf (c :: t)
      · simp only [hp, if_true, Option.some.injEq, Prod.mk.injEq] at h
        obtain ⟨h1, h2⟩ := h
        subst h1
        obtain ⟨t2, ht2⟩ := List.isPrefixOf_iff_prefix.mp hp
        subst h2
        rw [List.nil_append]
        conv_lhs => rw [← ht2]
        rw [← ht2, List.drop_left]
      · simp [hp] at h

theorem decodeValue_encodeValue (v : Value) : decodeValue (encodeValue v) = some v := by
  cases v <;> rfl

theorem decodeElem_encodeElem (e : Elem) : decodeElem (encodeElem e) = some e := by
  induction e with
  | nil => rfl
  | cons kv t ih =>
    have ht : optMapList (fun kv => (decodeValue kv.2).map (fun v => (kv.1, v)))
        (t.map (fun kv => (kv.1, encodeValue kv.2))) = some t := ih
    show optMapList (fun kv => (decodeValue kv.2).map (fun v => (kv.1, v)))
        ((kv.1, encodeValue kv.2) :: t.map (fun kv => (kv.1, encodeValue kv.2))) = some (kv :: t)
    rw [optMapList, ht, decodeValue_encodeValue]
    rfl

theorem decodeElemList_encode (l : List Elem) :
    decodeElemList (Json.arr (l.map encodeElem)) = some l := by
  induction l with
  | nil => rfl
  | cons e t ih =>
    have ht : optMapList decodeElem (t.map encodeElem) = some t := ih
    show optMapList decodeElem (encodeElem e :: t.map encodeElem) = some (e :: t)
    rw [optMapList, ht, decodeElem_encodeElem]

theorem decodeElements_encodeElements (E : Elements) :
    decodeElements (encodeElements E) = some E := by
  simp [decodeElements, encodeElements, dget, decodeElemList_encode]

/-! ## Claim theorems -/

/-- C10: `rotate_point` preserves the Euclidean norm exactly over the reals
(x'^2 + y'^2 = x^2 + y^2 for every point and angle); consequently the light
beam's end point of `create_light_coverage` always lies at squared distance
exactly beamLength^2 = (intensity / k(lightType))^2 from its start point. -/
theorem c10_rotate_norm_preserved :
    ∀ x y : ℝ,
      (∀ angle_deg : ℝ,
        (rotate_point x y angle_deg).1 ^ 2 + (rotate_point x y angle_deg).2 ^ 2
          = x ^ 2 + y ^ 2) ∧
      (∀ (z rot intensity : ℝ) (t : String),
        ((create_light_coverage x y z rot intensity t).getD 3 0 - x) ^ 2 +
          ((create_light_coverage x y z rot intensity t).getD 4 0 - y) ^ 2
          = (intensity / beamDivisor t) ^ 2) := by
  intro x y
  constructor
  · intro a
    have h := Real.sin_sq_add_cos_sq (angle_to_radians a)
    simp only [rotate_point]
    linear_combination (x ^ 2 + y ^ 2) * h
  · intro z rot i t
    have h := Real.sin_sq_add_cos_sq (angle_to_radians rot)
    simp only [create_light_coverage, beamDivisor, rotate_point,
      List.getD_cons_succ, List.getD_cons_zero]
    split_ifs
    · linear_combination ((i / 15) ^ 2) * h
    · linear_combination ((i / 25) ^ 2) * h
    · linear_combination ((i / 40) ^ 2) * h
    · linear_combination ((i / 10) ^ 2) * h

/-- C7: the light beam starts at the pose position and ends at the start
offset by `rotate_point 0 (intensity / k) rotation`, with k = 15 for
Key/Fill/Back lights, 25 for LED Panel, 40 for Practical and 10 for Natural
Light; intensity 0 yields a zero-length beam (end = start) rather than an
error. -/
theorem c7_light_beam_spec :
    ∀ x y z rot intensity : ℝ,
      (beamDivisor "Key Light" = 15 ∧ beamDivisor "Fill Light" = 15 ∧
        beamDivisor "Back Light" = 15 ∧ beamDivisor "LED Panel" = 25 ∧
        beamDivisor "Practical" = 40 ∧ beamDivisor "Natural Light" = 10) ∧
      (∀ t : String,
        create_light_coverage x y z rot intensity t =
          [x, y, z, x + (rotate_point 0 (intensity / beamDivisor t) rot).1,
           y + (rotate_point 0 (intensity / beamDivisor t) rot).2, z]) ∧
      (∀ t : String, create_light_coverage x y z rot 0 t = [x, y, z, x, y, z]) := by
  intro x y z rot i
  refine ⟨⟨?_, ?_, ?_, ?_, ?_, ?_⟩, ?_, ?_⟩
  · simp [beamDivisor]
  · simp [beamDivisor]
  · simp [beamDivisor]
  · simp [beamDivisor]
  · simp [beamDivisor]
  · simp [beamDivisor]
  · intro t
    simp only [create_light_coverage, beamDivisor]
    split_ifs <;> rfl
  · intro t
    simp only [create_light_coverage]
    split_ifs <;> simp [rotate_point, zero_div]

/-- C6: for every pose and every fovDeg in (0, 180), the camera frustum is
`[apex, farLeft, farRight]` with the apex at the pose position and the far
corners the rotations of (−w, 4) and (w, 4) by the pose rotation translated
by the pose position, where w = 4·tan(fovDeg/2); the far corners are
equidistant from the apex and symmetric about the forward ray. -/
theorem c6_camera_frustum_spec (x y z rot fov : ℝ)
    (_h0 : 0 < fov) (_h1 : fov < 180) : FrustumSpec x y z rot fov := by
  unfold FrustumSpec
  refine ⟨?_, ?_, ?_, ?_⟩
  · simp only [create_camera_frustum, List.map, rotate_point, angle_to_radians,
      List.cons.injEq, Prod.mk.injEq]
    repeat' apply And.intro
    all_goals first | rfl | ring_nf
  · simp only [rotate_point, angle_to_radians]
    ring
  · simp only [dot, rotate_point, angle_to_radians]
    ring
  · simp only [dot, rotate_point, angle_to_radians]
    ring

/-- C6 witness: the frustum property at the concrete pose (0,0,0), rotation
0 and fov 90, with the (0,180) bounds discharged there. -/
theorem c6_camera_frustum_witness :
    ((0 : ℝ) < 90 ∧ (90 : ℝ) < 180) ∧ FrustumSpec 0 0 0 0 90 :=
  ⟨⟨by norm_num, by norm_num⟩, c6_camera_frustum_spec 0 0 0 0 90 (by norm_num) (by norm_num)⟩

/-- A light record named "Key Light Copy", as produced by duplicating the
template Key Light once. -/
def demoKeyLightCopy : Elem :=
  [("name", Value.str "Key Light Copy"), ("type", Value.str "Key Light"),
   ("x", Value.num 3), ("y", Value.num 3), ("z", Value.num 6),
   ("rotation", Value.num 225), ("intensity", Value.num 100)]

/-- A light record named "Key Light". -/
def demoKeyLight : Elem :=
  [("name", Value.str "Key Light"), ("type", Value.str "Key Light"),
   ("x", Value.num 3), ("y", Value.num 3), ("z", Value.num 6),
   ("rotation", Value.num 225), ("intensity", Value.num 100)]

/-- C1 counterexample: duplicating an element named "Key Light Copy" names
the copy "Key Light Copy Copy 2" — not "Key Light Copy 2" as the claim
states (the name ends in bare "Copy", so the source takes its
`parts[1].strip().isdigit()`-false branch, which appends " Copy 2" to the
WHOLE name instead of replacing the suffix). -/
theorem c1_rename_counterexample :
    (duplicate_element "lights" demoKeyLightCopy).map (fun e => dget e "name")
        = some (some (Value.str "Key Light Copy Copy 2")) ∧
      "Key Light Copy Copy 2" ≠ "Key Light Copy 2" :=
  ⟨rfl, by decide⟩

/-- C1 (amended): `duplicate_element` names the copy by `renameCopy`, whose
grammar is: when "Copy" does not occur in the name, append " Copy"; when the
text after the LAST occurrence of "Copy" strips to a nonempty digit string N,
keep the prefix and emit "Copy {N+1}"; in every other case where "Copy"
occurs (including a name ending in bare "Copy"), append " Copy 2" to the
whole name.  In particular "Key Light" ↦ "Key Light Copy",
"Key Light Copy" ↦ "Key Light Copy Copy 2" (not "Key Light Copy 2"), and
"Key Light Copy 2" ↦ "Key Light Copy 3". -/
theorem c1_duplicate_rename_amended :
    (∀ (ty : String) (e : Elem) (x0 y0 : ℚ) (nm : String),
        dget e "x" = some (Value.num x0) → dget e "y" = some (Value.num y0) →
        dget e "name" = some (Value.str nm) →
        ∃ e2, duplicate_element ty e = some e2 ∧
          dget e2 "name" = some (Value.str (renameCopy nm))) ∧
    (∀ nm : String, (∀ a b : List Char, nm.toList ≠ a ++ copyPat ++ b) →
        renameCopy nm = nm ++ " Copy") ∧
    (∀ p s : List Char, 'C' ∉ s → isDigits (stripChars s) = true →
        renameCopy (String.mk (p ++ (copyPat ++ s)))
          = String.mk p ++ "Copy " ++ toString (digitsToNat (stripChars s) + 1)) ∧
    (∀ p s : List Char, 'C' ∉ s → isDigits (stripChars s) = false →
        renameCopy (String.mk (p ++ (copyPat ++ s)))
          = String.mk (p ++ (copyPat ++ s)) ++ " Copy 2") ∧
    renameCopy "Key Light" = "Key Light Copy" ∧
    renameCopy "Key Light Copy" = "Key Light Copy Copy 2" ∧
    renameCopy "Key Light Copy 2" = "Key Light Copy 3" := by
  refine ⟨?_, ?_, ?_, ?_, by decide, by decide, by decide⟩
  · intro ty e x0 y0 nm hx hy hn
    unfold duplicate_element
    rw [hx, hy, hn]
    exact ⟨_, rfl, dget_dset_self _ _ _⟩
  · intro nm h
    unfold renameCopy
    cases hr : rsplitLast copyPat nm.toList with
    | none => rfl
    | some pq =>
      obtain ⟨pre, suf⟩ := pq
      exact absurd (rsplitLast_decomp copyPat nm.toList pre suf hr) (h pre suf)
  · intro p s hC hd
    unfold renameCopy
    have hl : (String.mk (p ++ (copyPat ++ s))).toList = p ++ (copyPat ++ s) := rfl
    rw [hl, rsplitLast_append p s hC]
    simp [hd]
  · intro p s hC hd
    unfold renameCopy
    have hl : (String.mk (p ++ (copyPat ++ s))).toList = p ++ (copyPat ++ s) := rfl
    rw [hl, rsplitLast_append p s hC]
    simp [hd]

/-- C1 witness: the amended statement applied at concrete inputs — the name
of the duplicate of `demoKeyLight` is `renameCopy "Key Light"`, and the
digit-suffix clause at prefix "Key Light " with suffix " 2" yields
"Key Light Copy 3". -/
theorem c1_duplicate_rename_witness :
    (∃ e2, duplicate_element "lights" demoKeyLight = some e2 ∧
        dget e2 "name" = some (Value.str (renameCopy "Key Light"))) ∧
      renameCopy (String.mk ("Key Light ".toList ++ (copyPat ++ " 2".toList)))
        = String.mk "Key Light ".toList ++ "Copy "
            ++ toString (digitsToNat (stripChars " 2".toList) + 1) :=
  ⟨c1_duplicate_rename_amended.1 "lights" demoKeyLight 3 3 "Key Light" rfl rfl rfl,
   c1_duplicate_rename_amended.2.2.1 "Key Light ".toList " 2".toList
     (by decide) (by decide)⟩

/-- C8: `duplicate_element` offsets the copy's position by (+2,+2) exactly
when the kind is `cameras` and by (+1,+1) for every other kind. -/
theorem c8_duplicate_offset :
    ∀ (ty : String) (e : Elem) (x0 y0 : ℚ) (nm : String),
      dget e "x" = some (Value.num x0) → dget e "y" = some (Value.num y0) →
      dget e "name" = some (Value.str nm) →
      ∃ e2, duplicate_element ty e = some e2 ∧
        dget e2 "x" = some (Value.num (x0 + (if ty = "cameras" then 2 else 1))) ∧
        dget e2 "y" = some (Value.num (y0 + (if ty = "cameras" then 2 else 1))) := by
  intro ty e x0 y0 nm hx hy hn
  unfold duplicate_element
  rw [hx, hy, hn]
  refine ⟨_, rfl, ?_, ?_⟩
  · rw [dget_dset_ne _ _ _ _ (by decide : ("name" : String) ≠ "x"),
      dget_dset_ne _ _ _ _ (by decide : ("y" : String) ≠ "x"),
      dget_dset_self]
  · rw [dget_dset_ne _ _ _ _ (by decide : ("name" : String) ≠ "y"),
      dget_dset_self]

/-- A camera record at (0,0). -/
def demoCam00 : Elem :=
  [("name", Value.str "Camera A"), ("x", Value.num 0), ("y", Value.num 0),
   ("z", Value.num 5), ("rotation", Value.num 0),
   ("focal_length", Value.num 50), ("fov", Value.num 47)]

/-- An actor record at (1,1). -/
def demoActor11 : Elem :=
  [("name", Value.str "Actor 1"), ("x", Value.num 1), ("y", Value.num 1),
   ("notes", Value.str "Blocking")]

/-- C8 witness: duplicating the camera at (0,0) puts the copy at
(0+2, 0+2) = (2,2) and duplicating the actor at (1,1) puts the copy at
(1+1, 1+1) = (2,2). -/
theorem c8_duplicate_offset_witness :
    (∃ e2, duplicate_element "cameras" demoCam00 = some e2 ∧
        dget e2 "x" = some (Value.num (0 + (if ("cameras" : String) = "cameras" then 2 else 1))) ∧
        dget e2 "y" = some (Value.num (0 + (if ("cameras" : String) = "cameras" then 2 else 1)))) ∧
    (∃ e2, duplicate_element "actors" demoActor11 = some e2 ∧
        dget e2 "x" = some (Value.num (1 + (if ("actors" : String) = "cameras" then 2 else 1))) ∧
        dget e2 "y" = some (Value.num (1 + (if ("actors" : String) = "cameras" then 2 else 1)))) :=
  ⟨c8_duplicate_offset "cameras" demoCam00 0 0 "Camera A" rfl rfl rfl,
   c8_duplicate_offset "actors" demoActor11 1 1 "Actor 1" rfl rfl rfl⟩

/-- A light record with out-of-range intensity 150. -/
def demoLight150 : Elem :=
  [("name", Value.str "Light 1"), ("type", Value.str "Key Light"),
   ("x", Value.num 3), ("y", Value.num 0), ("z", Value.num 7),
   ("rotation", Value.num 0), ("intensity", Value.num 150)]

/-- C2 counterexample: adding a light record with intensity 150 does NOT
fail and does NOT leave the light sequence unchanged — the record is
appended and the length grows from 0 to 1 (the source has no
ValidationError; the [0,100] range exists only in the UI slider). -/
theorem c2_add_light_counterexample :
    dget demoLight150 "intensity" = some (Value.num 150) ∧
      emptyElements.lights.length = 0 ∧
      (add_light emptyElements demoLight150).lights.length = 1 ∧
      (add_light emptyElements demoLight150).lights = [demoLight150] :=
  ⟨rfl, rfl, rfl, rfl⟩

/-- C2 (amended): `add_light` appends the record unconditionally — for every
prior store and every record (any intensity), the light sequence afterwards
is the prior sequence plus the record (length + 1) and every other kind's
sequence is unchanged; no validation failure exists. -/
theorem c2_add_light_amended :
    ∀ (E : Elements) (record : Elem),
      (add_light E record).lights = E.lights ++ [record] ∧
      (add_light E record).lights.length = E.lights.length + 1 ∧
      (add_light E record).cameras = E.cameras ∧
      (add_light E record).actors = E.actors ∧
      (add_light E record).set_pieces = E.set_pieces ∧
      (add_light E record).vehicles = E.vehicles ∧
      (add_light E record).screens = E.screens ∧
      (add_light E record).green_screens = E.green_screens := by
  intro E r
  refine ⟨rfl, ?_, rfl, rfl, rfl, rfl, rfl, rfl⟩
  simp [add_light]

/-- C3: loading the document exported from any scene restores the scene's
elements mapping and scene name exactly (the `created`/`version` metadata
carry no state), for every prior scene state. -/
theorem c3_export_load_round_trip :
    ∀ (now : String) (s prior : Scene),
      (load_scene (export_scene_json now s) prior).1.elements = s.elements ∧
      (load_scene (export_scene_json now s) prior).1.scene_name = s.scene_name ∧
      (load_scene (export_scene_json now s) prior).2 = none := by
  intro now s prior
  have h : load_scene (export_scene_json now s) prior = (s, none) := by
    simp [load_scene, export_scene_json, dget, decodeElements_encodeElements]
  rw [h]
  exact ⟨rfl, rfl, rfl⟩

/-- The prior scene used to exhibit the partial load: name "Old" and one
light. -/
def demoSceneOld : Scene :=
  { scene_name := "Old", elements := { emptyElements with lights := [demoLight150] } }

/-- A document that has an `elements` key but NO `scene_name` key. -/
def demoDocNoName : Json :=
  Json.obj [("elements", encodeElements emptyElements)]

/-- C4 counterexample: loading a document whose `elements` key is present
but whose `scene_name` key is missing fails, yet the scene's elements HAVE
already been replaced while its name is untouched — a partial replacement,
contradicting the claimed atomicity. -/
theorem c4_partial_load_counterexample :
    (load_scene demoDocNoName demoSceneOld).2 ≠ none ∧
      (load_scene demoDocNoName demoSceneOld).1.elements ≠ demoSceneOld.elements ∧
      (load_scene demoDocNoName demoSceneOld).1.scene_name = demoSceneOld.scene_name :=
  ⟨by decide, by decide, rfl⟩

/-- C4 (amended): the load handler reads `elements` and then `scene_name` in
order.  (a) `elements` missing: it fails with the scene unchanged.
(b) `elements` present and well-formed but `scene_name` missing: the
elements are replaced and THEN it fails, leaving the old name — a partial,
non-atomic replacement.  (c) both keys present: full replacement succeeds.
Element entries are never validated beyond their JSON shape, so catalog-invalid
field values load successfully. -/
theorem c4_load_scene_amended :
    ∀ (fields : List (String × Json)) (s : Scene),
      (dget fields "elements" = none →
        load_scene (Json.obj fields) s = (s, some "KeyError: elements")) ∧
      (∀ (ev : Json) (E : Elements),
        dget fields "elements" = some ev → decodeElements ev = some E →
        dget fields "scene_name" = none →
        load_scene (Json.obj fields) s
          = ({ s with elements := E }, some "KeyError: scene_name")) ∧
      (∀ (ev : Json) (E : Elements) (nm : String),
        dget fields "elements" = some ev → decodeElements ev = some E →
        dget fields "scene_name" = some (Json.str nm) →
        load_scene (Json.obj fields) s = ({ scene_name := nm, elements := E }, none)) := by
  intro fs s
  refine ⟨?_, ?_, ?_⟩
  · intro h
    simp [load_scene, h]
  · intro ev E h1 h2 h3
    simp [load_scene, h1, h2, h3]
  · intro ev E nm h1 h2 h3
    simp [load_scene, h1, h2, h3]

/-- C4 witness: the partial-replacement case applied at the concrete
document `demoDocNoName` and prior scene `demoSceneOld`, with the three
key-lookup hypotheses discharged there. -/
theorem c4_load_scene_witness :
    load_scene (Json.obj [("elements", encodeElements emptyElements)]) demoSceneOld
      = ({ demoSceneOld with elements := emptyElements }, some "KeyError: scene_name") :=
  (c4_load_scene_amended [("elements", encodeElements emptyElements)] demoSceneOld).2.1
    (encodeElements emptyElements) emptyElements rfl
    (decodeElements_encodeElements emptyElements) rfl

/-- A vehicle record, present before a template is applied. -/
def demoVehicle : Elem :=
  [("name", Value.str "Car"), ("type", Value.str "Car"),
   ("x", Value.num 0), ("y", Value.num 0), ("rotation", Value.num 0)]

/-- A scene holding one vehicle. -/
def demoVehScene : Scene :=
  { scene_name := "Untitled Scene",
    elements := { emptyElements with vehicles := [demoVehicle] } }

/-- C5 counterexample: applying "Three-Point Lighting" to a scene containing
a vehicle leaves the vehicle in place — the vehicles sequence is NOT the
empty sequence the claim requires for kinds the template does not mention. -/
theorem c5_template_counterexample :
    (apply_template "Three-Point Lighting" demoVehScene).map
        (fun t => t.elements.vehicles) = some [demoVehicle] ∧
      [demoVehicle] ≠ ([] : List Elem) :=
  ⟨rfl, by decide⟩

/-- C5 (amended): each recognized template overwrites exactly the kind
sequences its handler mentions with its fixed literal lists and leaves every
other kind's sequence (and the scene name) as it was — it does not clear
unmentioned kinds; an unrecognized template name corresponds to no button
and applies nothing (`none`). -/
theorem c5_apply_template_amended :
    ∀ s : Scene,
      ((apply_template "Three-Point Lighting" s).map (fun t => t.elements.lights)
          = some threePointLights ∧
        (apply_template "Three-Point Lighting" s).map (fun t => t.elements.actors)
          = some threePointActors ∧
        (apply_template "Three-Point Lighting" s).map (fun t => t.elements.cameras)
          = some threePointCameras ∧
        (apply_template "Three-Point Lighting" s).map (fun t => t.elements.set_pieces)
          = some s.elements.set_pieces ∧
        (apply_template "Three-Point Lighting" s).map (fun t => t.elements.vehicles)
          = some s.elements.vehicles ∧
        (apply_template "Three-Point Lighting" s).map (fun t => t.elements.screens)
          = some s.elements.screens ∧
        (apply_template "Three-Point Lighting" s).map (fun t => t.elements.green_screens)
          = some s.elements.green_screens ∧
        (apply_template "Three-Point Lighting" s).map (fun t => t.scene_name)
          = some s.scene_name) ∧
      ((apply_template "Multi-Camera Interview" s).map (fun t => t.elements.cameras)
          = some multiCamCameras ∧
        (apply_template "Multi-Camera Interview" s).map (fun t => t.elements.actors)
          = some multiCamActors ∧
        (apply_template "Multi-Camera Interview" s).map (fun t => t.elements.set_pieces)
          = some multiCamSetPieces ∧
        (apply_template "Multi-Camera Interview" s).map (fun t => t.elements.lights)
          = some s.elements.lights ∧
        (apply_template "Multi-Camera Interview" s).map (fun t => t.elements.vehicles)
          = some s.elements.vehicles ∧
        (apply_template "Multi-Camera Interview" s).map (fun t => t.elements.screens)
          = some s.elements.screens ∧
        (apply_template "Multi-Camera Interview" s).map (fun t => t.elements.green_screens)
          = some s.elements.green_screens) ∧
      ((apply_template "Green Screen Setup" s).map (fun t => t.elements.green_screens)
          = some gsSetupGreenScreens ∧
        (apply_template "Green Screen Setup" s).map (fun t => t.elements.cameras)
          = some gsSetupCameras ∧
        (apply_template "Green Screen Setup" s).map (fun t => t.elements.lights)
          = some gsSetupLights ∧
        (apply_template "Green Screen Setup" s).map (fun t => t.elements.actors)
          = some gsSetupActors ∧
        (apply_template "Green Screen Setup" s).map (fun t => t.elements.set_pieces)
          = some s.elements.set_pieces ∧
        (apply_template "Green Screen Setup" s).map (fun t => t.elements.vehicles)
          = some s.elements.vehicles ∧
        (apply_template "Green Screen Setup" s).map (fun t => t.elements.screens)
          = some s.elements.screens) ∧
      (∀ nm : String, nm ≠ "Three-Point Lighting" → nm ≠ "Multi-Camera Interview" →
        nm ≠ "Green Screen Setup" → apply_template nm s = none) := by
  intro s
  refine ⟨⟨rfl, rfl, rfl, rfl, rfl, rfl, rfl, rfl⟩,
    ⟨rfl, rfl, rfl, rfl, rfl, rfl, rfl⟩,
    ⟨rfl, rfl, rfl, rfl, rfl, rfl, rfl⟩, ?_⟩
  intro nm h1 h2 h3
  simp [apply_template, h1, h2, h3]

/-- C5 witness: the unrecognized-name clause applied at the concrete name
"Bogus Template" on the empty scene. -/
theorem c5_apply_template_witness :
    apply_template "Bogus Template" emptyScene = none :=
  (c5_apply_template_amended emptyScene).2.2.2 "Bogus Template"
    (by decide) (by decide) (by decide)

/-- C9 counterexample: on the empty scene every kind's count is 0, so the
claimed checklist rule ("exactly one line per kind whose count is > 0")
requires an empty checklist — but the report emits two checklist lines
(cameras and lights are always listed, even at count 0). -/
theorem c9_checklist_counterexample :
    (export_setup_report emptyScene).checklist.length = 2 ∧
      emptyScene.elements.cameras.length = 0 ∧
      emptyScene.elements.lights.length = 0 ∧
      emptyScene.elements.actors.length = 0 ∧
      emptyScene.elements.set_pieces.length = 0 ∧
      emptyScene.elements.vehicles.length = 0 ∧
      emptyScene.elements.screens.length = 0 ∧
      emptyScene.elements.green_screens.length = 0 :=
  ⟨rfl, rfl, rfl, rfl, rfl, rfl, rfl, rfl⟩

/-- C9 (amended): the report always opens with the CAMERAS, LIGHTING and
TALENT sections (their counts shown even when 0); a SET PIECES / VEHICLES /
SCREENS\/MONITORS / GREEN SCREENS section appears exactly when that kind is
nonempty; and the trailing checklist is exactly one camera line and one
light line (always, even at count 0) plus a monitor line when screens are
nonempty and a green-screen line when green screens are nonempty — no lines
for any other kind. -/
theorem c9_report_sections_amended :
    ∀ s : Scene,
      (((export_setup_report s).sections.map (fun sec => (sec.title, sec.count))).take 3
          = [("CAMERAS", s.elements.cameras.length),
             ("LIGHTING", s.elements.lights.length),
             ("TALENT", s.elements.actors.length)]) ∧
      ("SET PIECES" ∈ (export_setup_report s).sections.map ReportSection.title
          ↔ s.elements.set_pieces ≠ []) ∧
      ("VEHICLES" ∈ (export_setup_report s).sections.map ReportSection.title
          ↔ s.elements.vehicles ≠ []) ∧
      ("SCREENS/MONITORS" ∈ (export_setup_report s).sections.map ReportSection.title
          ↔ s.elements.screens ≠ []) ∧
      ("GREEN SCREENS" ∈ (export_setup_report s).sections.map ReportSection.title
          ↔ s.elements.green_screens ≠ []) ∧
      ((export_setup_report s).checklist
        = ["  ☐ " ++ toString s.elements.cameras.length ++ " Camera(s)\n",
           "  ☐ " ++ toString s.elements.lights.length ++ " Light(s)\n"]
          ++ (if s.elements.screens = [] then [] else
              ["  ☐ " ++ toString s.elements.screens.length ++ " Monitor(s)\n"])
          ++ (if s.elements.green_screens = [] then [] else
              ["  ☐ " ++ toString s.elements.green_screens.length ++ " Green Screen(s)\n"])) := by
  intro s
  refine ⟨?_, ?_, ?_, ?_, ?_, rfl⟩
  · by_cases h1 : s.elements.set_pieces = [] <;>
      by_cases h2 : s.elements.vehicles = [] <;>
      by_cases h3 : s.elements.screens = [] <;>
      by_cases h4 : s.elements.green_screens = [] <;>
      simp [export_setup_report, h1, h2, h3, h4]
  · by_cases h1 : s.elements.set_pieces = [] <;>
      by_cases h2 : s.elements.vehicles = [] <;>
      by_cases h3 : s.elements.screens = [] <;>
      by_cases h4 : s.elements.green_screens = [] <;>
      simp [export_setup_report, h1, h2, h3, h4]
  · by_cases h1 : s.elements.set_pieces = [] <;>
      by_cases h2 : s.elements.vehicles = [] <;>
      by_cases h3 : s.elements.screens = [] <;>
      by_cases h4 : s.elements.green_screens = [] <;>
      simp [export_setup_report, h1, h2, h3, h4]
  · by_cases h1 : s.elements.set_pieces = [] <;>
      by_cases h2 : s.elements.vehicles = [] <;>
      by_cases h3 : s.elements.screens = [] <;>
      by_cases h4 : s.elements.green_screens = [] <;>
      simp [export_setup_report, h1, h2, h3, h4]
  · by_cases h1 : s.elements.set_pieces = [] <;>
      by_cases h2 : s.elements.vehicles = [] <;>
      by_cases h3 : s.elements.screens = [] <;>
      by_cases h4 : s.elements.green_screens = [] <;>
      simp [export_setup_report, h1, h2, h3, h4]

end Previz
